import Mathlib

/-!
Verification development for the signaware-ai backend core: the document
analysis status machine (`app/services/document_analysis.py`), the chat
service (`app/services/chat_service.py`) and the PII masking service
(`app/services/pii_masking.py`), shallowly embedded over explicit
database states (lists of records).  External LLM calls are modelled by
passing the provider's outcome as an explicit argument.
-/

namespace Signaware

/-- Enumeration of document lifecycle states (`app/models.py`, `DocumentStatus`). -/
inductive DocumentStatus where
  | pending
  | processing
  | completed
  | failed
deriving DecidableEq

/-- String value of a `DocumentStatus`, as stored by `EnumAsString`. -/
def DocumentStatus.value : DocumentStatus → String
  | .pending => "pending"
  | .processing => "processing"
  | .completed => "completed"
  | .failed => "failed"

/-- Enumeration of document kinds (`app/models.py`, `DocumentType`). -/
inductive DocumentType where
  | terms_of_service
  | privacy_policy
  | contract
  | agreement
  | other
deriving DecidableEq

/-- String value of a `DocumentType`. -/
def DocumentType.value : DocumentType → String
  | .terms_of_service => "terms_of_service"
  | .privacy_policy => "privacy_policy"
  | .contract => "contract"
  | .agreement => "agreement"
  | .other => "other"

/-- Chat message roles (`app/models.py`, `ChatMessageRole`). -/
inductive ChatMessageRole where
  | user
  | assistant
  | system
deriving DecidableEq

/-- String value of a `ChatMessageRole`. -/
def ChatMessageRole.value : ChatMessageRole → String
  | .user => "user"
  | .assistant => "assistant"
  | .system => "system"

/-- Shape-level analysis output of the inference provider: the fields of the
pydantic `AnalysisResult` model (`app/services/document_analysis.py`), before
range validation.  Python floats are modelled as rationals. -/
structure AnalysisFields where
  summary : String
  hidden_clauses : List String
  risk_assessment : String
  loopholes : List String
  red_flags : List String
  risk_score : Rat
  confidence_rating : Rat
  key_concerns : List String
deriving DecidableEq

/-- Stored analysis record (`app/schemas.py`, `DocumentAnalysisResult`):
the provider fields plus the `analyzed_at` timestamp. -/
structure DocumentAnalysisResult extends AnalysisFields where
  analyzed_at : Nat
deriving DecidableEq

/-- Range constraints imposed by pydantic `ge`/`le` validators on
`AnalysisResult` and `DocumentAnalysisResult`: risk score in [1,5] and
confidence rating in [0,100]. -/
def ValidRanges (f : AnalysisFields) : Prop :=
  1 ≤ f.risk_score ∧ f.risk_score ≤ 5 ∧ 0 ≤ f.confidence_rating ∧ f.confidence_rating ≤ 100

instance (f : AnalysisFields) : Decidable (ValidRanges f) := by
  unfold ValidRanges; infer_instance

/-- Pydantic validation step performed by `PydanticOutputParser` when parsing
the provider output into `AnalysisResult`: out-of-range numeric fields raise
an `OutputParserException`, modelled as `Except.error`. -/
def parseAnalysisResult (f : AnalysisFields) : Except String AnalysisFields :=
  if ValidRanges f then .ok f
  else .error "Failed to parse AnalysisResult from completion: value out of range"

/-- Masked-content record stored in the `maskedContent` JSONB field
(`app/services/pii_masking.py`, `mask_document_content`). -/
structure MaskedData where
  original_content : String
  masked_content : String
  original_length : Nat
  masked_length : Nat
  masked_at : Nat
  model_used : String
deriving DecidableEq

/-- Document row (`app/models.py`, `Document`), restricted to the fields the
services read or write.  Ids and timestamps are modelled as naturals. -/
structure Document where
  id : Nat
  userId : Nat
  title : String
  content : String
  dtype : DocumentType
  status : DocumentStatus
  analysis : Option DocumentAnalysisResult
  maskedContent : Option MaskedData
  processingStartedAt : Option Nat
  processingCompletedAt : Option Nat
  errorMessage : Option String
deriving DecidableEq

/-- A freshly created document (`DocumentCreate` handling): status defaults to
`PENDING`, analysis, masked content, timestamps and error are null. -/
def initialDocument (id userId : Nat) (title content : String) (dtype : DocumentType) :
    Document :=
  { id := id, userId := userId, title := title, content := content, dtype := dtype,
    status := .pending, analysis := none, maskedContent := none,
    processingStartedAt := none, processingCompletedAt := none, errorMessage := none }

/-- The ownership-checked document lookup used by every service:
`db.query(Document).filter(Document.id == document_id, Document.userId == user_id).first()`. -/
def findDoc (docs : List Document) (documentId userId : Nat) : Option Document :=
  docs.find? (fun d => d.id == documentId && d.userId == userId)

/-- ORM mutation plus commit of a document row: the row with the document's id
is replaced by the updated object. -/
def updateDoc (docs : List Document) (d : Document) : List Document :=
  docs.map (fun x => if x.id == d.id then d else x)

/-- Response object of the analysis endpoints (`app/schemas.py`,
`AnalyzeDocumentResponse`). -/
structure AnalyzeDocumentResponse where
  document_id : Nat
  status : DocumentStatus
  analysis : Option DocumentAnalysisResult := none
  processing_started_at : Option Nat := none
  processing_completed_at : Option Nat := none
  error_message : Option String := none
deriving DecidableEq

/-- Result of one `analyze_document` call: the database after the call, the
response returned to the caller, and whether the inference provider was
invoked during the call. -/
structure AnalyzeOutcome where
  docs : List Document
  response : AnalyzeDocumentResponse
  providerCalled : Bool
deriving DecidableEq

/-- Embedding of `DocumentAnalysisService.analyze_document`
(`app/services/document_analysis.py`).  The provider outcome stands for the
result of `chain.ainvoke` up to shape parsing: `.ok fields` is a structurally
well-formed provider reply (still subject to range validation), `.error e` is
any exception raised during the attempt (network, provider, shape failure).
`tStart`/`tDone` are the wall-clock readings at the two `datetime.utcnow()`
commit points.  A missing or unowned document raises `ValueError`
(`Except.error`). -/
def analyze_document (documentId userId : Nat) (provider : Except String AnalysisFields)
    (tStart tDone : Nat) (docs : List Document) : Except String AnalyzeOutcome :=
  match findDoc docs documentId userId with
  | none => .error ("Document " ++ toString documentId ++ " not found or access denied")
  | some document =>
    -- idempotent short-circuit: already analyzed and completed
    if document.status = .completed ∧ document.analysis.isSome then
      .ok { docs := docs,
            response := { document_id := document.id, status := document.status,
                          analysis := document.analysis,
                          processing_started_at := document.processingStartedAt,
                          processing_completed_at := document.processingCompletedAt },
            providerCalled := false }
    else
      -- first commit: mark processing, stamp start, clear prior error
      let d1 : Document :=
        { document with status := .processing, processingStartedAt := some tStart,
                        errorMessage := none }
      let docs1 := updateDoc docs d1
      match provider.bind parseAnalysisResult with
      | .ok fields =>
        let analysis_data : DocumentAnalysisResult :=
          { toAnalysisFields := fields, analyzed_at := tDone }
        let d2 : Document :=
          { d1 with analysis := some analysis_data, status := .completed,
                    processingCompletedAt := some tDone }
        .ok { docs := updateDoc docs1 d2,
              response := { document_id := d2.id, status := d2.status,
                            analysis := some analysis_data,
                            processing_started_at := d2.processingStartedAt,
                            processing_completed_at := d2.processingCompletedAt },
              providerCalled := true }
      | .error e =>
        let d2 : Document :=
          { d1 with status := .failed, errorMessage := some e,
                    processingCompletedAt := some tDone }
        .ok { docs := updateDoc docs1 d2,
              response := { document_id := d2.id, status := d2.status,
                            processing_started_at := d2.processingStartedAt,
                            processing_completed_at := d2.processingCompletedAt,
                            error_message := some e },
              providerCalled := true }

/-- Whitespace characters stripped by Python `str.strip()`. -/
def isPyWhitespace (c : Char) : Bool :=
  c = ' ' || c = '\t' || c = '\n' || c = '\r' || c.toNat = 11 || c.toNat = 12

/-- Python `str.strip()` on a character list. -/
def pyStripList (l : List Char) : List Char :=
  ((l.dropWhile isPyWhitespace).reverse.dropWhile isPyWhitespace).reverse

/-- Python `str.strip()`. -/
def pyStrip (s : String) : String :=
  String.mk (pyStripList s.data)

/-- Index of the first occurrence of `pat` in `l`, Python `str.find` style
(`none` for -1). -/
def findSubIdx : List Char → List Char → Option Nat
  | [], pat => if pat.isPrefixOf ([] : List Char) then some 0 else none
  | l@(_ :: t), pat =>
    if pat.isPrefixOf l then some 0 else (findSubIdx t pat).map (· + 1)

/-- Python substring membership `pat in s`. -/
def pyContains (s pat : String) : Bool :=
  (findSubIdx s.data pat.data).isSome

/-- Python `str.split` on the newline character, on a character list:
`''.split(c)` is `['']`, separators at the ends produce empty pieces. -/
def splitLinesList : List Char → List String
  | [] => [""]
  | c :: t =>
    if c = '\n' then "" :: splitLinesList t
    else
      match splitLinesList t with
      | [] => [String.mk [c]]
      | s :: rest => String.mk (c :: s.data) :: rest

/-- Python `s.split('\n')`. -/
def pySplitLines (s : String) : List String :=
  splitLinesList s.data

/-- Python `str.startswith` applied to a tuple of candidate prefixes. -/
def startsWithAnyOf (s : String) (ps : List String) : Bool :=
  ps.any (fun p => p.data.isPrefixOf s.data)

/-- The line filter of `PIIMaskingService.mask_pii`: keep a (stripped) line if
it is non-empty and does not start with one of the explanatory-preamble
markers `"Here"`, `"The"`, `"I\x27ve"`, `"This"`. -/
def keepLine (line : String) : Bool :=
  line != "" && !(startsWithAnyOf line ["Here", "The", "I\x27ve", "This"])

/-- Post-processing tail of `PIIMaskingService.mask_pii`
(`app/services/pii_masking.py`), applied to the raw provider response:
skip the deepseek-r1 thinking block when both `"<think>"` and `"</think>"`
occur, then keep the stripped non-preamble lines, joining them with single
spaces, and fall back to the stripped remainder when no line survives. -/
def mask_pii (rawResponse : String) : String :=
  let raw1 : String :=
    if pyContains rawResponse "<think>" && pyContains rawResponse "</think>" then
      match findSubIdx rawResponse.data "</think>".data with
      | some thinking_end => pyStrip (String.mk (rawResponse.data.drop (thinking_end + 8)))
      | none => rawResponse
    else rawResponse
  let lines := pySplitLines raw1
  let masked_content :=
    lines.foldl (fun acc line => if keepLine (pyStrip line) then acc ++ [pyStrip line] else acc) []
  if masked_content ≠ [] then String.intercalate " " masked_content else pyStrip raw1

/-- Thinking-block removal step, shared vocabulary for the specification-side
restatements of the masking cleanup. -/
def stripReasoningBlock (raw : String) : String :=
  if pyContains raw "<think>" && pyContains raw "</think>" then
    match findSubIdx raw.data "</think>".data with
    | some thinking_end => pyStrip (String.mk (raw.data.drop (thinking_end + 8)))
    | none => raw
  else raw

/-- Literal reading of the claimed cleanup: lines of the remainder are
discarded when empty or starting with a preamble marker, with no whitespace
stripping of the individual lines, and survivors are joined with single
spaces; the fallback returns the stripped remainder. -/
def claimedMaskCleanup (raw : String) : String :=
  let body := stripReasoningBlock raw
  let kept := (pySplitLines body).filter keepLine
  if kept ≠ [] then String.intercalate " " kept else pyStrip body

/-- Amended reading of the cleanup: each line is first stripped of surrounding
whitespace, then discarded when empty or starting with a preamble marker; the
surviving stripped lines are joined with single spaces; the fallback returns
the stripped remainder. -/
def amendedMaskCleanup (raw : String) : String :=
  let body := stripReasoningBlock raw
  let kept := ((pySplitLines body).map pyStrip).filter keepLine
  if kept ≠ [] then String.intercalate " " kept else pyStrip body

/-- Result of `PIIMaskingService.mask_document_content`: the database after
the call plus the dictionary returned to the caller. -/
structure MaskOutcome where
  docs : List Document
  document_id : Nat
  masked_content : String
  original_length : Nat
  masked_length : Nat
  masked_at : Nat
deriving DecidableEq

/-- Embedding of `PIIMaskingService.mask_document_content`
(`app/services/pii_masking.py`).  `rawResponse` is the raw text the local
model returns for the masking prompt over the document's content; `now` is
the `datetime.utcnow()` reading; `model_used` the configured model name. -/
def mask_document_content (documentId userId : Nat) (rawResponse : String)
    (now : Nat) (model_used : String) (docs : List Document) :
    Except String MaskOutcome :=
  match findDoc docs documentId userId with
  | none => .error ("Document " ++ toString documentId ++ " not found or access denied")
  | some document =>
    let masked_content := mask_pii rawResponse
    let masked_data : MaskedData :=
      { original_content := document.content, masked_content := masked_content,
        original_length := document.content.length,
        masked_length := masked_content.length,
        masked_at := now, model_used := model_used }
    let d2 : Document := { document with maskedContent := some masked_data }
    .ok { docs := updateDoc docs d2, document_id := document.id,
          masked_content := masked_content,
          original_length := document.content.length,
          masked_length := masked_content.length, masked_at := now }

/-- Chat message row (`app/models.py`, `ChatMessage`), restricted to the
fields the chat service reads or writes.  `message_metadata` holds the
timestamp recorded by `_save_message`. -/
structure ChatMessage where
  id : Nat
  content : String
  role : ChatMessageRole
  sessionId : String
  message_metadata : Nat
  userId : Nat
  documentId : Nat
  createdAt : Nat
deriving DecidableEq

/-- Database state seen by the chat service: document rows, chat message rows,
the next message id the store will assign, and a monotone clock supplying
creation timestamps. -/
structure ChatDB where
  docs : List Document
  msgs : List ChatMessage
  nextMsgId : Nat
  clock : Nat
deriving DecidableEq

/-- Embedding of `ChatService._save_message`: append a new message row with a
fresh id and the current timestamp, and return it. -/
def save_message (db : ChatDB) (content : String) (role : ChatMessageRole)
    (sessionId : String) (documentId userId : Nat) : ChatDB × ChatMessage :=
  let message : ChatMessage :=
    { id := db.nextMsgId, content := content, role := role, sessionId := sessionId,
      message_metadata := db.clock, userId := userId, documentId := documentId,
      createdAt := db.clock }
  ({ db with msgs := db.msgs ++ [message], nextMsgId := db.nextMsgId + 1,
             clock := db.clock + 1 }, message)

/-- Bullet list rendering used by the context builder:
`chr(10).join(f'- \x7bitem\x7d' for item in items)`. -/
def bulletLines (items : List String) : String :=
  String.intercalate "\n" (items.map (fun item => "- " ++ item))

/-- The analysis context block rendered by `ChatService._get_document_context`
for an analyzed document. -/
def documentContextBlock (document : Document) (analysis : DocumentAnalysisResult) : String :=
  "\nDocument Information:\n- Title: " ++ document.title ++
  "\n- Type: " ++ document.dtype.value ++
  "\n- Status: " ++ document.status.value ++
  "\n\nDocument Analysis Summary:\n- Summary: " ++ analysis.summary ++
  "\n- Risk Score: " ++ toString analysis.risk_score ++
  "/5\n- Confidence Rating: " ++ toString analysis.confidence_rating ++
  "%\n- Risk Assessment: " ++ analysis.risk_assessment ++
  "\n\nHidden Clauses:\n" ++ bulletLines analysis.hidden_clauses ++
  "\n\nLoopholes:\n" ++ bulletLines analysis.loopholes ++
  "\n\nRed Flags:\n" ++ bulletLines analysis.red_flags ++
  "\n\nKey Concerns:\n" ++ bulletLines analysis.key_concerns ++
  "\n\nAnalysis Date: " ++ toString analysis.analyzed_at ++ "\n"

/-- Embedding of `ChatService._get_document_context`: a fixed denial string
when the document is missing or unowned, a title-bearing instructional string
when it has no analysis, the rendered context block otherwise. -/
def get_document_context (documentId userId : Nat) (docs : List Document) : String :=
  match findDoc docs documentId userId with
  | none => "No document found or access denied."
  | some document =>
    match document.analysis with
    | none =>
      "Document \x27" ++ document.title ++
      "\x27 has not been analyzed yet. Please analyze the document first to get detailed insights."
    | some analysis => documentContextBlock document analysis

/-- The (session, document, owner) filter shared by the history queries. -/
def matchesTuple (sessionId : String) (documentId userId : Nat) (m : ChatMessage) : Bool :=
  m.sessionId == sessionId && m.documentId == documentId && m.userId == userId

/-- The store's `order_by(ChatMessage.createdAt)`: ascending sort on the
creation timestamp. -/
def sortByCreatedAt (msgs : List ChatMessage) : List ChatMessage :=
  msgs.mergeSort (fun a b => a.createdAt ≤ b.createdAt)

/-- The filtered, creation-time-ordered message query shared by
`_get_conversation_history` and `get_chat_history`. -/
def queryMessages (db : ChatDB) (sessionId : String) (documentId userId : Nat) :
    List ChatMessage :=
  sortByCreatedAt (db.msgs.filter (matchesTuple sessionId documentId userId))

/-- Embedding of `ChatService._get_conversation_history`: (role value,
content) pairs of the session's messages in creation order. -/
def get_conversation_history (db : ChatDB) (sessionId : String) (documentId userId : Nat) :
    List (String × String) :=
  (queryMessages db sessionId documentId userId).map (fun m => (m.role.value, m.content))

/-- Response row shape of `get_chat_history` (`app/schemas.py`,
`ChatMessageResponse`). -/
structure ChatMessageResponse where
  id : Nat
  content : String
  role : ChatMessageRole
  sessionId : String
  message_metadata : Nat
  userId : Nat
  documentId : Nat
  createdAt : Nat
deriving DecidableEq

/-- Conversion from a stored message row to its response shape. -/
def toResponse (m : ChatMessage) : ChatMessageResponse :=
  { id := m.id, content := m.content, role := m.role, sessionId := m.sessionId,
    message_metadata := m.message_metadata, userId := m.userId,
    documentId := m.documentId, createdAt := m.createdAt }

/-- Embedding of `ChatService.get_chat_history`. -/
def get_chat_history (db : ChatDB) (sessionId : String) (documentId userId : Nat) :
    List ChatMessageResponse :=
  (queryMessages db sessionId documentId userId).map toResponse

/-- Behaviour of the streaming provider during one chat turn: the contents of
the chunks delivered before the stream ends, and, when the turn raises, the
exception's message (`none` on the non-raising path).  A pre-stream exception
is the case `chunks = []`, `err = some e`. -/
structure StreamOutcome where
  chunks : List String
  err : Option String
deriving DecidableEq

/-- Embedding of `ChatService.chat_stream` (`app/services/chat_service.py`).
Returns the sequence of yielded `(chunk, message_id)` events and the final
database state.  Missing or unowned document: a single fixed error event and
no writes.  Otherwise the user message is saved first; non-empty chunk
contents are forwarded as they arrive and accumulated; on normal completion a
single assistant message with the accumulated text is saved (skipped when the
accumulation is empty), while an exception saves a single error-prefixed
assistant message and yields it. -/
def chat_stream (message sessionId : String) (documentId userId : Nat)
    (provider : StreamOutcome) (db : ChatDB) :
    List (String × Option Nat) × ChatDB :=
  match findDoc db.docs documentId userId with
  | none => ([("Error: Document not found or access denied.", none)], db)
  | some _ =>
    let (db1, _) := save_message db message .user sessionId documentId userId
    let forwarded := provider.chunks.filter (fun c => c ≠ "")
    let events := forwarded.map (fun c => (c, (none : Option Nat)))
    match provider.err with
    | some e =>
      let error_message := "Sorry, I encountered an error: " ++ e
      let (db2, assistant_message) :=
        save_message db1 error_message .assistant sessionId documentId userId
      (events ++ [(error_message, some assistant_message.id)], db2)
    | none =>
      let complete_response := String.join forwarded
      if complete_response ≠ "" then
        let (db2, assistant_message) :=
          save_message db1 complete_response .assistant sessionId documentId userId
        (events ++ [("", some assistant_message.id)], db2)
      else
        (events, db1)

/-- Number of persisted messages for a (session, document, owner) tuple. -/
def msgCount (db : ChatDB) (sessionId : String) (documentId userId : Nat) : Nat :=
  (db.msgs.filter (matchesTuple sessionId documentId userId)).length

/-- One observable committed state change of a document row, as performed by
the services.  `analyze_document` commits three times: the processing mark
(reached only when the completed-with-analysis short-circuit did not fire),
the success commit and the failure commit (both reached only after the
processing commit, so with the row marked `processing`, and the success
commit only with provider fields that passed `parseAnalysisResult`);
`mask_document_content` commits a masked-content record.  The lemma
`analyze_document_commits` ties the executable function to these steps. -/
inductive DocStep : Document → Document → Prop
  | toProcessing (d : Document) (t : Nat)
      (hguard : ¬ (d.status = .completed ∧ d.analysis.isSome)) :
      DocStep d { d with status := .processing, processingStartedAt := some t,
                         errorMessage := none }
  | toCompleted (d : Document) (fields : AnalysisFields) (t : Nat)
      (hst : d.status = .processing)
      (hparse : ∃ f0, parseAnalysisResult f0 = .ok fields) :
      DocStep d { d with analysis := some { toAnalysisFields := fields, analyzed_at := t },
                         status := .completed, processingCompletedAt := some t }
  | toFailed (d : Document) (e : String) (t : Nat)
      (hst : d.status = .processing) :
      DocStep d { d with status := .failed, errorMessage := some e,
                         processingCompletedAt := some t }
  | toMasked (d : Document) (md : MaskedData) :
      DocStep d { d with maskedContent := some md }

/-- Document states reachable from document creation through the committed
steps of the analysis and masking operations. -/
inductive DocReachable : Document → Prop
  | init (id userId : Nat) (title content : String) (dtype : DocumentType) :
      DocReachable (initialDocument id userId title content dtype)
  | step (d d' : Document) (hd : DocReachable d) (hs : DocStep d d') : DocReachable d'

/-- Example fixtures for concrete instantiations. -/
def exampleDoc : Document := initialDocument 1 2 "A" "some document content" .contract

/-- A second pending document, identical but for the title. -/
def exampleDocB : Document := initialDocument 1 2 "B" "some document content" .contract

/-- A chat database holding only `exampleDoc`. -/
def exampleChatDB : ChatDB := { docs := [exampleDoc], msgs := [], nextMsgId := 0, clock := 0 }

/-- In-range provider analysis fields for concrete runs. -/
def exampleFields : AnalysisFields :=
  { summary := "short summary", hidden_clauses := ["auto-renewal"],
    risk_assessment := "moderate", loopholes := [], red_flags := ["fee"],
    risk_score := 3, confidence_rating := 85, key_concerns := ["fees"] }

/-- The example document after the processing commit of an analysis run. -/
def exampleDocProcessing : Document :=
  { exampleDoc with status := .processing, processingStartedAt := some 10,
                    errorMessage := none }

/-- The example document after the success commit of that run. -/
def exampleDocCompleted : Document :=
  { exampleDocProcessing with
      analysis := some { toAnalysisFields := exampleFields, analyzed_at := 11 },
      status := .completed, processingCompletedAt := some 11 }

/-- The invariant maintained by every committed step: COMPLETED iff an
analysis record is stored, and any stored record is within the ranges. -/
def AnalysisInvariant (d : Document) : Prop :=
  (d.status = .completed ↔ d.analysis.isSome) ∧
  ∀ a, d.analysis = some a → ValidRanges a.toAnalysisFields

theorem append_ne_empty_left (a b : String) (h : a ≠ "") : a ++ b ≠ "" := by
  intro heq
  have hd : a.data ++ b.data = ([] : List Char) := by
    have := congrArg String.data heq
    rwa [String.data_append] at this
  exact h (String.ext (List.append_eq_nil.mp hd).1)

theorem foldl_append_ne_empty (t : List String) :
    ∀ acc : String, acc ≠ "" → t.foldl (fun r s => r ++ s) acc ≠ "" := by
  induction t with
  | nil => intro acc h; exact h
  | cons b t ih =>
    intro acc h
    exact ih (acc ++ b) (append_ne_empty_left acc b h)

theorem join_ne_empty (l : List String) (h1 : ∀ s ∈ l, s ≠ "") (h2 : l ≠ []) :
    String.join l ≠ "" := by
  match l with
  | [] => exact absurd rfl h2
  | a :: t =>
    show List.foldl (fun r s => r ++ s) ("" ++ a) t ≠ ""
    have ha : "" ++ a ≠ "" := by
      intro heq
      have hd : ([] : List Char) ++ a.data = ([] : List Char) := by
        have := congrArg String.data heq
        rwa [String.data_append] at this
      rw [List.nil_append] at hd
      exact h1 a (List.mem_cons_self a t) (String.ext hd)
    exact foldl_append_ne_empty t ("" ++ a) ha

theorem filter_ne_empty_members (l : List String) :
    ∀ s ∈ l.filter (fun c => c ≠ ""), s ≠ "" := by
  intro s hs
  have := List.of_mem_filter hs
  simpa using this

/-- Claim C10: when the (documentId, callerId) pair matches no owned document,
`chat_stream` yields exactly one fragment, the fixed denial string with no
message id, and persists nothing: the database is returned unchanged. -/
theorem chat_stream_not_found (message sessionId : String) (documentId userId : Nat)
    (provider : StreamOutcome) (db : ChatDB)
    (hf : findDoc db.docs documentId userId = none) :
    chat_stream message sessionId documentId userId provider db
      = ([("Error: Document not found or access denied.", none)], db) := by
  unfold chat_stream
  rw [hf]

/-- Witness for C10 at a concrete database owning no document 9. -/
theorem chat_stream_not_found_witness :
    chat_stream "hello" "s1" 9 2 { chunks := ["x"], err := none } exampleChatDB
      = ([("Error: Document not found or access denied.", none)], exampleChatDB) :=
  chat_stream_not_found "hello" "s1" 9 2 { chunks := ["x"], err := none }
    exampleChatDB (by decide)

/-- Counterexample to claim C5: there is no single fixed "not analyzed"
string returned for every existing owned unanalyzed document — the string
embeds the document's title, so two unanalyzed documents with different
titles produce different strings. -/
theorem get_document_context_no_fixed_string :
    ¬ ∃ s : String, ∀ (docs : List Document) (documentId userId : Nat) (d : Document),
        findDoc docs documentId userId = some d → d.analysis = none →
        get_document_context documentId userId docs = s := by
  rintro ⟨s, h⟩
  have h1 := h [exampleDoc] 1 2 exampleDoc (by decide) rfl
  have h2 := h [exampleDocB] 1 2 exampleDocB (by decide) rfl
  exact (by decide :
      get_document_context 1 2 [exampleDoc] ≠ get_document_context 1 2 [exampleDocB])
    (h1.trans h2.symm)

/-- Claim C5 (amended): `buildContext` fails closed — a missing or unowned
document yields the fixed denial string rather than an error, and an existing
owned document without an analysis yields the instructional "not analyzed"
string, which embeds the document's title (one fixed template, not one fixed
string). -/
theorem get_document_context_fails_closed :
    (∀ (docs : List Document) (documentId userId : Nat),
        findDoc docs documentId userId = none →
        get_document_context documentId userId docs = "No document found or access denied.")
    ∧ (∀ (docs : List Document) (documentId userId : Nat) (d : Document),
        findDoc docs documentId userId = some d → d.analysis = none →
        get_document_context documentId userId docs =
          "Document \x27" ++ d.title ++
          "\x27 has not been analyzed yet. Please analyze the document first to get detailed insights.") := by
  constructor
  · intro docs documentId userId hf
    unfold get_document_context
    rw [hf]
  · intro docs documentId userId d hf ha
    unfold get_document_context
    rw [hf]
    dsimp only
    rw [ha]

/-- Witness for C5 at concrete databases: a lookup miss and an unanalyzed
owned document. -/
theorem get_document_context_fails_closed_witness :
    get_document_context 9 2 [exampleDoc] = "No document found or access denied."
    ∧ get_document_context 1 2 [exampleDoc] =
        "Document \x27" ++ exampleDoc.title ++
        "\x27 has not been analyzed yet. Please analyze the document first to get detailed insights." :=
  ⟨get_document_context_fails_closed.1 [exampleDoc] 9 2 (by decide),
   get_document_context_fails_closed.2 [exampleDoc] 1 2 exampleDoc (by decide) rfl⟩

/-- Counterexample to claim C1: in a turn on an existing owned document whose
stream succeeds while yielding no non-empty fragment, the assistant save is
skipped (`if complete_response:`), so the tuple's message count grows by 1,
not by 2. -/
theorem chat_stream_growth_counterexample :
    msgCount (chat_stream "hi" "s" 1 2 { chunks := [], err := none } exampleChatDB).2 "s" 1 2
      ≠ msgCount exampleChatDB "s" 1 2 + 2 := by decide

/-- Claim C1 (amended): a turn on an existing owned document first persists
exactly one user message; after the stream ends exactly one assistant message
is persisted on the failure path and on the success path with a non-empty
accumulated text, so the (session, document, user) message count grows by
exactly 2 — except that a successful stream whose accumulated text is empty
persists no assistant message, and the count grows by exactly 1. -/
theorem chat_stream_msg_growth (message sessionId : String) (documentId userId : Nat)
    (provider : StreamOutcome) (db : ChatDB) (d : Document)
    (hf : findDoc db.docs documentId userId = some d) :
    (∃ um : ChatMessage, um.role = .user ∧ um.content = message ∧
        matchesTuple sessionId documentId userId um ∧
        ((provider.err = none ∧ String.join (provider.chunks.filter (fun c => c ≠ "")) = "" ∧
            (chat_stream message sessionId documentId userId provider db).2.msgs
              = db.msgs ++ [um])
         ∨ (∃ am : ChatMessage, am.role = .assistant ∧
              matchesTuple sessionId documentId userId am ∧
              (chat_stream message sessionId documentId userId provider db).2.msgs
                = db.msgs ++ [um, am])))
    ∧ msgCount (chat_stream message sessionId documentId userId provider db).2
          sessionId documentId userId
        = msgCount db sessionId documentId userId +
          (if provider.err = none ∧
              String.join (provider.chunks.filter (fun c => c ≠ "")) = "" then 1 else 2) := by
  unfold chat_stream save_message
  rw [hf]
  rcases provider with ⟨chunks, err⟩
  cases err with
  | some e =>
    dsimp only
    constructor
    · refine ⟨{ id := db.nextMsgId, content := message, role := .user,
                sessionId := sessionId, message_metadata := db.clock, userId := userId,
                documentId := documentId, createdAt := db.clock }, rfl, rfl,
              by simp [matchesTuple],
              Or.inr ⟨{ id := db.nextMsgId + 1,
                        content := "Sorry, I encountered an error: " ++ e,
                        role := .assistant, sessionId := sessionId,
                        message_metadata := db.clock + 1, userId := userId,
                        documentId := documentId, createdAt := db.clock + 1 }, rfl,
                      by simp [matchesTuple], ?_⟩⟩
      simp [List.append_assoc]
    · rw [if_neg (by simp)]
      simp [msgCount, List.filter_append, matchesTuple]
  | none =>
    by_cases hc : String.join (chunks.filter (fun c => c ≠ "")) = ""
    · dsimp only
      rw [if_neg (by simpa using hc), if_pos ⟨rfl, hc⟩]
      constructor
      · exact ⟨{ id := db.nextMsgId, content := message, role := .user,
                 sessionId := sessionId, message_metadata := db.clock, userId := userId,
                 documentId := documentId, createdAt := db.clock }, rfl, rfl,
               by simp [matchesTuple], Or.inl ⟨rfl, hc, rfl⟩⟩
      · simp [msgCount, List.filter_append, matchesTuple]
    · dsimp only
      rw [if_pos (by simpa using hc), if_neg (fun h => hc h.2)]
      constructor
      · refine ⟨{ id := db.nextMsgId, content := message, role := .user,
                  sessionId := sessionId, message_metadata := db.clock, userId := userId,
                  documentId := documentId, createdAt := db.clock }, rfl, rfl,
                by simp [matchesTuple],
                Or.inr ⟨{ id := db.nextMsgId + 1,
                          content := String.join (chunks.filter (fun c => c ≠ "")),
                          role := .assistant, sessionId := sessionId,
                          message_metadata := db.clock + 1, userId := userId,
                          documentId := documentId, createdAt := db.clock + 1 }, rfl,
                        by simp [matchesTuple], ?_⟩⟩
        simp [List.append_assoc]
      · simp [msgCount, List.filter_append, matchesTuple]

/-- Witness for C1 at a concrete turn: a two-fragment successful stream on
the example database grows the tuple's message count from 0 to 2. -/
theorem chat_stream_msg_growth_witness :
    (∃ um : ChatMessage, um.role = .user ∧ um.content = "hi" ∧
        matchesTuple "s" 1 2 um ∧
        (({ chunks := ["a", "b"], err := none } : StreamOutcome).err = none ∧
            String.join ((["a", "b"] : List String).filter (fun c => c ≠ "")) = "" ∧
            (chat_stream "hi" "s" 1 2 { chunks := ["a", "b"], err := none } exampleChatDB).2.msgs
              = exampleChatDB.msgs ++ [um]
         ∨ (∃ am : ChatMessage, am.role = .assistant ∧ matchesTuple "s" 1 2 am ∧
              (chat_stream "hi" "s" 1 2 { chunks := ["a", "b"], err := none } exampleChatDB).2.msgs
                = exampleChatDB.msgs ++ [um, am])))
    ∧ msgCount (chat_stream "hi" "s" 1 2 { chunks := ["a", "b"], err := none } exampleChatDB).2
          "s" 1 2
        = msgCount exampleChatDB "s" 1 2 +
          (if ({ chunks := ["a", "b"], err := none } : StreamOutcome).err = none ∧
              String.join ((["a", "b"] : List String).filter (fun c => c ≠ "")) = ""
           then 1 else 2) :=
  chat_stream_msg_growth "hi" "s" 1 2 { chunks := ["a", "b"], err := none }
    exampleChatDB exampleDoc (by decide)

/-- Claim C7: on a successful (non-raising) stream that forwards at least one
fragment, the events yielded to the caller are exactly the provider's
non-empty chunk contents in emission order (a sublist of the emitted chunk
sequence) followed by the final id-bearing empty event, and the single
assistant message persisted at completion contains exactly the concatenation
of the forwarded fragments. -/
theorem chat_stream_forwarding (message sessionId : String) (documentId userId : Nat)
    (provider : StreamOutcome) (db : ChatDB) (d : Document)
    (hf : findDoc db.docs documentId userId = some d)
    (herr : provider.err = none)
    (hne : provider.chunks.filter (fun c => c ≠ "") ≠ []) :
    chat_stream message sessionId documentId userId provider db
      = ((provider.chunks.filter (fun c => c ≠ "")).map (fun c => (c, (none : Option Nat)))
           ++ [("", some (db.nextMsgId + 1))],
         { db with
             msgs := db.msgs ++
               [{ id := db.nextMsgId, content := message, role := .user,
                  sessionId := sessionId, message_metadata := db.clock, userId := userId,
                  documentId := documentId, createdAt := db.clock },
                { id := db.nextMsgId + 1,
                  content := String.join (provider.chunks.filter (fun c => c ≠ "")),
                  role := .assistant, sessionId := sessionId,
                  message_metadata := db.clock + 1, userId := userId,
                  documentId := documentId, createdAt := db.clock + 1 }],
             nextMsgId := db.nextMsgId + 2, clock := db.clock + 2 })
    ∧ (provider.chunks.filter (fun c => c ≠ "")).Sublist provider.chunks := by
  have hjoin : String.join (provider.chunks.filter (fun c => c ≠ "")) ≠ "" :=
    join_ne_empty _ (filter_ne_empty_members provider.chunks) hne
  constructor
  · unfold chat_stream save_message
    rw [hf, herr]
    dsimp only
    rw [if_pos hjoin]
    simp [List.append_assoc]
  · exact List.filter_sublist provider.chunks

/-- Witness for C7 at a concrete two-chunk stream on the example database. -/
theorem chat_stream_forwarding_witness :
    chat_stream "hi" "s" 1 2 { chunks := ["Hel", "lo"], err := none } exampleChatDB
      = ([("Hel", none), ("lo", none), ("", some 1)],
         { docs := [exampleDoc],
           msgs := [{ id := 0, content := "hi", role := .user, sessionId := "s",
                      message_metadata := 0, userId := 2, documentId := 1, createdAt := 0 },
                    { id := 1, content := "Hello", role := .assistant, sessionId := "s",
                      message_metadata := 1, userId := 2, documentId := 1, createdAt := 1 }],
           nextMsgId := 2, clock := 2 })
    ∧ ((["Hel", "lo"] : List String).filter (fun c => c ≠ "")).Sublist ["Hel", "lo"] := by
  have h := chat_stream_forwarding "hi" "s" 1 2 { chunks := ["Hel", "lo"], err := none }
    exampleChatDB exampleDoc (by decide) rfl (by decide)
  exact ⟨by rw [h.1]; decide, h.2⟩

theorem queryMessages_perm (db : ChatDB) (sessionId : String) (documentId userId : Nat) :
    (queryMessages db sessionId documentId userId).Perm
      (db.msgs.filter (matchesTuple sessionId documentId userId)) :=
  List.mergeSort_perm _ _

/-- Claim C6: `buildHistory` returns exactly the persisted messages of the
(session, document, owner) tuple, sorted ascending by creation time, with
length equal to the exact count of persisted messages for the tuple (no
windowing); likewise for the in-context history builder. -/
theorem get_chat_history_sorted_exact (db : ChatDB) (sessionId : String)
    (documentId userId : Nat) :
    List.Pairwise (fun a b : ChatMessageResponse => a.createdAt ≤ b.createdAt)
        (get_chat_history db sessionId documentId userId)
    ∧ (get_chat_history db sessionId documentId userId).length
        = msgCount db sessionId documentId userId
    ∧ (get_chat_history db sessionId documentId userId).Perm
        ((db.msgs.filter (matchesTuple sessionId documentId userId)).map toResponse)
    ∧ (get_conversation_history db sessionId documentId userId).length
        = msgCount db sessionId documentId userId := by
  have hperm := queryMessages_perm db sessionId documentId userId
  refine ⟨?_, ?_, ?_, ?_⟩
  · have hs := @List.sorted_mergeSort ChatMessage
      (fun a b : ChatMessage => a.createdAt ≤ b.createdAt)
      (fun a b c hab hbc => by
        simp only [decide_eq_true_eq] at *
        exact Nat.le_trans hab hbc)
      (fun a b => by
        simp only [Bool.or_eq_true, decide_eq_true_eq]
        exact Nat.le_total a.createdAt b.createdAt)
      (db.msgs.filter (matchesTuple sessionId documentId userId))
    exact List.Pairwise.map toResponse
      (fun a b h => by simpa using of_decide_eq_true h) hs
  · show ((queryMessages db sessionId documentId userId).map toResponse).length = _
    rw [List.length_map, hperm.length_eq]
    rfl
  · exact hperm.map toResponse
  · show ((queryMessages db sessionId documentId userId).map
        (fun m => (m.role.value, m.content))).length = _
    rw [List.length_map, hperm.length_eq]
    rfl

theorem updateDoc_updateDoc (docs : List Document) (d1 d2 : Document) (h : d1.id = d2.id) :
    updateDoc (updateDoc docs d1) d2 = updateDoc docs d2 := by
  induction docs with
  | nil => rfl
  | cons x t ih =>
    show updateDoc (updateDoc (x :: t) d1) d2 = updateDoc (x :: t) d2
    unfold updateDoc at *
    simp only [List.map_cons, List.cons.injEq]
    refine ⟨?_, ih⟩
    by_cases h1 : (x.id == d1.id) = true
    · rw [if_pos h1]
      have h2 : (d1.id == d2.id) = true := beq_iff_eq.mpr h
      have h3 : (x.id == d2.id) = true := beq_iff_eq.mpr ((beq_iff_eq.mp h1).trans h)
      rw [if_pos h2, if_pos h3]
    · simp only [if_neg h1]

/-- Claim C3: on a document that is COMPLETED with a stored analysis record,
`analyze_document` short-circuits to the same fixed result for every provider
outcome and timestamps: the database is unchanged (so repeated calls return
byte-identical content), the response carries the stored record unchanged,
and the provider is not invoked. -/
theorem analyze_document_idempotent (documentId userId : Nat) (docs : List Document)
    (d : Document) (a : DocumentAnalysisResult)
    (hf : findDoc docs documentId userId = some d)
    (hs : d.status = .completed) (ha : d.analysis = some a) :
    ∀ (provider : Except String AnalysisFields) (tStart tDone : Nat),
      analyze_document documentId userId provider tStart tDone docs
        = .ok { docs := docs,
                response := { document_id := d.id, status := .completed,
                              analysis := some a,
                              processing_started_at := d.processingStartedAt,
                              processing_completed_at := d.processingCompletedAt },
                providerCalled := false } := by
  intro provider tStart tDone
  unfold analyze_document
  rw [hf]
  dsimp only
  rw [if_pos ⟨hs, by rw [ha]; rfl⟩]
  rw [hs, ha]

/-- Witness for C3 at the concrete completed example document: two distinct
provider outcomes produce the same stored record and no provider call. -/
theorem analyze_document_idempotent_witness :
    analyze_document 1 2 (.error "unused") 0 0 [exampleDocCompleted]
      = .ok { docs := [exampleDocCompleted],
              response := { document_id := 1, status := .completed,
                            analysis := some { toAnalysisFields := exampleFields,
                                               analyzed_at := 11 },
                            processing_started_at := some 10,
                            processing_completed_at := some 11 },
              providerCalled := false }
    ∧ analyze_document 1 2 (.ok exampleFields) 20 21 [exampleDocCompleted]
      = .ok { docs := [exampleDocCompleted],
              response := { document_id := 1, status := .completed,
                            analysis := some { toAnalysisFields := exampleFields,
                                               analyzed_at := 11 },
                            processing_started_at := some 10,
                            processing_completed_at := some 11 },
              providerCalled := false } :=
  ⟨analyze_document_idempotent 1 2 [exampleDocCompleted] exampleDocCompleted
      { toAnalysisFields := exampleFields, analyzed_at := 11 } (by decide) rfl rfl
      (.error "unused") 0 0,
   analyze_document_idempotent 1 2 [exampleDocCompleted] exampleDocCompleted
      { toAnalysisFields := exampleFields, analyzed_at := 11 } (by decide) rfl rfl
      (.ok exampleFields) 20 21⟩

/-- Claim C4: when the attempt on an existing owned (not yet analyzed)
document raises — the combined provider/validation outcome is an error `e` —
`analyze_document` persists status FAILED with errorMessage equal to the
error's message (non-empty whenever the message is), stamps the completion
time, leaves the analysis field null, and returns `.ok` with a response
carrying the error instead of propagating the exception. -/
theorem analyze_document_failure (documentId userId : Nat) (docs : List Document)
    (d : Document) (provider : Except String AnalysisFields) (e : String)
    (tStart tDone : Nat)
    (hf : findDoc docs documentId userId = some d)
    (ha : d.analysis = none)
    (hp : provider.bind parseAnalysisResult = .error e)
    (he : e ≠ "") :
    analyze_document documentId userId provider tStart tDone docs
      = .ok { docs := updateDoc docs
                { id := d.id, userId := d.userId, title := d.title, content := d.content,
                  dtype := d.dtype, status := .failed, analysis := none,
                  maskedContent := d.maskedContent,
                  processingStartedAt := some tStart,
                  processingCompletedAt := some tDone, errorMessage := some e },
              response := { document_id := d.id, status := .failed, analysis := none,
                            processing_started_at := some tStart,
                            processing_completed_at := some tDone,
                            error_message := some e },
              providerCalled := true }
    ∧ e ≠ "" := by
  refine ⟨?_, he⟩
  unfold analyze_document
  rw [hf]
  dsimp only
  rw [if_neg (fun hcon => by rw [ha] at hcon; exact Bool.noConfusion hcon.2)]
  rw [hp]
  dsimp only
  rw [updateDoc_updateDoc docs
      { d with status := .processing, processingStartedAt := some tStart,
               errorMessage := none }
      { d with status := .failed, processingStartedAt := some tStart,
               processingCompletedAt := some tDone, errorMessage := some e }
      rfl]
  rw [ha]

/-- Witness for C4 at the concrete pending example document and a provider
connection error. -/
theorem analyze_document_failure_witness :
    analyze_document 1 2 (.error "Connection error") 10 11 [exampleDoc]
      = .ok { docs := updateDoc [exampleDoc]
                { id := 1, userId := 2, title := "A", content := "some document content",
                  dtype := .contract, status := .failed, analysis := none,
                  maskedContent := none, processingStartedAt := some 10,
                  processingCompletedAt := some 11, errorMessage := some "Connection error" },
              response := { document_id := 1, status := .failed, analysis := none,
                            processing_started_at := some 10,
                            processing_completed_at := some 11,
                            error_message := some "Connection error" },
              providerCalled := true }
    ∧ "Connection error" ≠ "" :=
  analyze_document_failure 1 2 [exampleDoc] exampleDoc (.error "Connection error")
    "Connection error" 10 11 (by decide) rfl rfl (by decide)

theorem parseAnalysisResult_ok {f g : AnalysisFields}
    (h : parseAnalysisResult f = .ok g) : g = f ∧ ValidRanges f := by
  unfold parseAnalysisResult at h
  split at h
  · injection h with h2
    exact ⟨h2.symm, by assumption⟩
  · exact absurd h (by simp)

/-- Bridge between the executable `analyze_document` and the committed step
relation: on a found document a call either leaves the store unchanged (the
short-circuit) or commits exactly a processing step followed by a completion
or failure step. -/
theorem analyze_document_commits (documentId userId : Nat)
    (provider : Except String AnalysisFields) (tStart tDone : Nat)
    (docs : List Document) (d : Document) (out : AnalyzeOutcome)
    (hf : findDoc docs documentId userId = some d)
    (hok : analyze_document documentId userId provider tStart tDone docs = .ok out) :
    out.docs = docs
    ∨ ∃ d1 d2, DocStep d d1 ∧ DocStep d1 d2 ∧ out.docs = updateDoc (updateDoc docs d1) d2 := by
  unfold analyze_document at hok
  rw [hf] at hok
  dsimp only at hok
  by_cases hsc : d.status = .completed ∧ d.analysis.isSome
  · rw [if_pos hsc] at hok
    left
    injection hok with h1
    rw [← h1]
  · rw [if_neg hsc] at hok
    cases hp : provider.bind parseAnalysisResult with
    | ok fields =>
      rw [hp] at hok
      dsimp only at hok
      right
      refine ⟨_, _, DocStep.toProcessing d tStart hsc,
              DocStep.toCompleted _ fields tDone rfl ?_, ?_⟩
      · cases provider with
        | error e => simp [Except.bind] at hp
        | ok f0 => exact ⟨f0, by simpa [Except.bind] using hp⟩
      · injection hok with h1
        rw [← h1]
    | error e =>
      rw [hp] at hok
      dsimp only at hok
      right
      refine ⟨_, _, DocStep.toProcessing d tStart hsc, DocStep.toFailed _ e tDone rfl, ?_⟩
      injection hok with h1
      rw [← h1]

theorem reachable_invariant (d : Document) (h : DocReachable d) : AnalysisInvariant d := by
  induction h with
  | init id userId title content dtype =>
    exact ⟨by simp [initialDocument], fun a ha => by simp [initialDocument] at ha⟩
  | step d d' hd hs ih =>
    cases hs with
    | toProcessing t hguard =>
      rcases ih with ⟨ih1, ih2⟩
      have hnone : d.analysis = none := by
        cases hx : d.analysis with
        | none => rfl
        | some a => exact absurd ⟨ih1.mpr (by simp [hx]), by simp [hx]⟩ hguard
      exact ⟨by simp [hnone], fun a ha => by simp [hnone] at ha⟩
    | toCompleted fields t hst hparse =>
      obtain ⟨f0, hp⟩ := hparse
      obtain ⟨heq, hv⟩ := parseAnalysisResult_ok hp
      subst heq
      refine ⟨by simp, fun a ha => ?_⟩
      have ha2 : some ({ toAnalysisFields := fields, analyzed_at := t } :
          DocumentAnalysisResult) = some a := ha
      injection ha2 with ha3
      rw [← ha3]
      exact hv
    | toFailed e t hst =>
      rcases ih with ⟨ih1, ih2⟩
      have hnone : d.analysis = none := by
        cases hx : d.analysis with
        | none => rfl
        | some a =>
          have hc : d.status = .completed := ih1.mpr (by simp [hx])
          rw [hst] at hc
          exact DocumentStatus.noConfusion hc
      exact ⟨by simp [hnone], fun a ha => by simp [hnone] at ha⟩
    | toMasked md =>
      rcases ih with ⟨ih1, ih2⟩
      exact ⟨by simpa using ih1, fun a ha => ih2 a (by simpa using ha)⟩

/-- Claim C2: every document state reachable through the analysis and masking
operations satisfies that status is COMPLETED iff the analysis field holds a
record meeting the range constraints (risk score in [1,5], confidence in
[0,100]); moreover any non-COMPLETED reachable state has a null analysis —
the analysis field is set only together with COMPLETED, and the FAILED branch
leaves it untouched (null). -/
theorem analysis_status_invariant (d : Document) (hr : DocReachable d) :
    (d.status = .completed ↔ ∃ a, d.analysis = some a ∧
        1 ≤ a.risk_score ∧ a.risk_score ≤ 5 ∧
        0 ≤ a.confidence_rating ∧ a.confidence_rating ≤ 100)
    ∧ (d.status ≠ .completed → d.analysis = none) := by
  obtain ⟨h1, h2⟩ := reachable_invariant d hr
  constructor
  · constructor
    · intro hc
      obtain ⟨a, ha⟩ := Option.isSome_iff_exists.mp (h1.mp hc)
      obtain ⟨r1, r2, c1, c2⟩ := h2 a ha
      exact ⟨a, ha, r1, r2, c1, c2⟩
    · rintro ⟨a, ha, -⟩
      exact h1.mpr (by simp [ha])
  · intro hnc
    cases hx : d.analysis with
    | none => rfl
    | some a => exact absurd (h1.mpr (by simp [hx])) hnc

/-- Witness for C2 at the concrete completed document reached by a
pending → processing → completed run with in-range provider fields. -/
theorem analysis_status_invariant_witness :
    (exampleDocCompleted.status = .completed ↔ ∃ a, exampleDocCompleted.analysis = some a ∧
        1 ≤ a.risk_score ∧ a.risk_score ≤ 5 ∧
        0 ≤ a.confidence_rating ∧ a.confidence_rating ≤ 100)
    ∧ (exampleDocCompleted.status ≠ .completed → exampleDocCompleted.analysis = none) :=
  analysis_status_invariant exampleDocCompleted
    (DocReachable.step _ _
      (DocReachable.step _ _ (DocReachable.init 1 2 "A" "some document content" .contract)
        (DocStep.toProcessing exampleDoc 10 (by decide)))
      (DocStep.toCompleted exampleDocProcessing exampleFields 11 rfl
        ⟨exampleFields, by unfold parseAnalysisResult; rw [if_pos (by decide)]⟩))

theorem findDoc_updateDoc (docs : List Document) (d2 : Document) (documentId userId : Nat)
    (hid : d2.id = documentId) (huid : d2.userId = userId)
    (hex : ∃ x ∈ docs, x.id = documentId) :
    findDoc (updateDoc docs d2) documentId userId = some d2 := by
  induction docs with
  | nil =>
    obtain ⟨x, hx, -⟩ := hex
    exact absurd hx (List.not_mem_nil x)
  | cons y t ih =>
    show List.find? _ (List.map _ (y :: t)) = some d2
    rw [List.map_cons]
    by_cases h1 : (y.id == d2.id) = true
    · rw [if_pos h1]
      exact List.find?_cons_of_pos _ (by rw [hid, huid]; simp)
    · rw [if_neg h1]
      have hny : ¬ y.id = documentId :=
        fun hc => h1 (beq_iff_eq.mpr (hc.trans hid.symm))
      rw [List.find?_cons_of_neg _ (by simp [hny])]
      refine ih ?_
      obtain ⟨x, hx, hxid⟩ := hex
      rcases List.mem_cons.mp hx with rfl | hxt
      · exact absurd hxid hny
      · exact ⟨x, hxt, hxid⟩

/-- Claim C8: a masking request on an existing owned document persists a
masked-content record whose `masked_length` is the character length of the
text the masking step returned and whose `original_length` is the character
length of the document\x27s original content; the response mirrors both. -/
theorem mask_document_content_lengths (documentId userId : Nat) (rawResponse : String)
    (now : Nat) (model_used : String) (docs : List Document) (d : Document)
    (hf : findDoc docs documentId userId = some d) :
    ∃ out md,
      mask_document_content documentId userId rawResponse now model_used docs = .ok out
      ∧ findDoc out.docs documentId userId = some { d with maskedContent := some md }
      ∧ md.masked_content = mask_pii rawResponse
      ∧ md.masked_length = (mask_pii rawResponse).length
      ∧ md.original_content = d.content
      ∧ md.original_length = d.content.length
      ∧ out.masked_length = md.masked_length
      ∧ out.original_length = md.original_length := by
  have hf2 : List.find? (fun x : Document => x.id == documentId && x.userId == userId)
      docs = some d := hf
  have hpd := List.find?_some hf2
  rw [Bool.and_eq_true, beq_iff_eq, beq_iff_eq] at hpd
  have hmem : d ∈ docs := List.mem_of_find?_eq_some hf
  refine ⟨{ docs := updateDoc docs
              { d with maskedContent := some {
                  original_content := d.content, masked_content := mask_pii rawResponse,
                  original_length := d.content.length,
                  masked_length := (mask_pii rawResponse).length,
                  masked_at := now, model_used := model_used } },
            document_id := d.id, masked_content := mask_pii rawResponse,
            original_length := d.content.length,
            masked_length := (mask_pii rawResponse).length, masked_at := now },
          { original_content := d.content, masked_content := mask_pii rawResponse,
            original_length := d.content.length,
            masked_length := (mask_pii rawResponse).length,
            masked_at := now, model_used := model_used },
          ?_, ?_, rfl, rfl, rfl, rfl, rfl, rfl⟩
  · unfold mask_document_content
    rw [hf]
  · exact findDoc_updateDoc docs _ documentId userId hpd.1 hpd.2 ⟨d, hmem, hpd.1⟩

/-- Witness for C8 at the concrete example document and a concrete raw
provider response. -/
theorem mask_document_content_lengths_witness :
    ∃ out md,
      mask_document_content 1 2 "John [NAME]" 5 "deepseek-r1:8b" [exampleDoc] = .ok out
      ∧ findDoc out.docs 1 2 = some { exampleDoc with maskedContent := some md }
      ∧ md.masked_content = mask_pii "John [NAME]"
      ∧ md.masked_length = (mask_pii "John [NAME]").length
      ∧ md.original_content = exampleDoc.content
      ∧ md.original_length = exampleDoc.content.length
      ∧ out.masked_length = md.masked_length
      ∧ out.original_length = md.original_length :=
  mask_document_content_lengths 1 2 "John [NAME]" 5 "deepseek-r1:8b" [exampleDoc]
    exampleDoc (by decide)

theorem foldl_filter_map (p : String → Bool) (f : String → String) (lines : List String) :
    ∀ acc : List String,
      lines.foldl (fun acc line => if p (f line) then acc ++ [f line] else acc) acc
        = acc ++ (lines.map f).filter p := by
  induction lines with
  | nil => intro acc; simp
  | cons l t ih =>
    intro acc
    rw [List.foldl_cons, List.map_cons, List.filter_cons]
    by_cases hp : p (f l) = true
    · rw [if_pos hp, if_pos hp, ih, List.append_assoc]
      rfl
    · rw [if_neg hp, if_neg hp, ih]

/-- Counterexample to claim C9 read literally: the code strips each line of
surrounding whitespace before the preamble test and the join, so on a raw
response whose preamble line carries leading spaces the literal reading and
the code disagree. -/
theorem mask_pii_literal_counterexample :
    mask_pii "  The masked\nfoo" ≠ claimedMaskCleanup "  The masked\nfoo" := by decide

/-- Claim C9 (amended): the masking cleanup drops the text up to and
including the first reasoning-block terminator when both delimiters occur,
then strips each line of surrounding whitespace, discards the lines that are
then empty or start with a preamble marker, joins the survivors with single
spaces, and returns the stripped remainder when no line survives. -/
theorem mask_pii_cleanup_amended (raw : String) :
    mask_pii raw = amendedMaskCleanup raw := by
  unfold mask_pii amendedMaskCleanup stripReasoningBlock
  dsimp only
  rw [foldl_filter_map keepLine pyStrip]
  rw [List.nil_append]

end Signaware
